import Mathlib

/-
Verification of the MFSU plugin (src/packages/umi/src/ServiceWithBuiltIn.ts).

The plugin orchestrates a separately-bundled dependency artifact: it checks
the user configuration (checkConfig), locates the per-mode output directory
(getMfsuPath), classifies incoming dev-server requests (normalizeReqPath and
the middleware registered via api.addBeforeMiddlewares), reconciles and
rebuilds the dependency bundle (buildDeps with its onBuildComplete callback),
and exposes the `mfsu` command (api.registerCommand) guarded by the mode
assertion in api.onStart.

Strings are modelled as Lean String over their underlying character lists;
all scanners below are structural recursions over List Char so that every
definition evaluates by kernel reduction. Filesystem and network side
effects are modelled as explicit event traces. External collaborators that
are not part of this repository (the mime table) are parameters; parts of
this repository that are outside src (DepBuilder, DepInfo) are modelled from
the spec where a claim depends on them, and each such definition says so in
its doc comment.
-/

namespace Mfsu

/-- Modes of the plugin, source line 44: type TMode. -/
inductive TMode where
  | production
  | development
deriving DecidableEq, Repr

/-- List-level check that `pre` is a prefix of `s` (JS String.startsWith). -/
def strStartsWith (s pre : String) : Bool :=
  List.isPrefixOf pre.data s.data

/-- Strip a literal character sequence from the front, or fail. -/
def dropLit : List Char → List Char → Option (List Char)
  | [], cs => some cs
  | _ :: _, [] => none
  | p :: ps, c :: cs => if p = c then dropLit ps cs else none

/-- Does `f` hold at some suffix of the list (unanchored regex search)? -/
def anyPosHolds (f : List Char → Bool) : List Char → Bool
  | [] => f []
  | c :: rest => f (c :: rest) || anyPosHolds f (rest)

/-- JS RegExp.test for a regex made only of literal characters: the pattern
occurs as a substring. -/
def hasSubstr (s pat : String) : Bool :=
  anyPosHolds (fun cs => List.isPrefixOf pat.data cs) s.data

/-- Node path.join modelled as segment concatenation with a separator.
Node's separator cleanup and dot-segment normalization are irrelevant to the
properties below, which treat the joined path symbolically. -/
def pathJoin (a b : String) : String :=
  a ++ "/" ++ b

/-- JS `a || b` for an optional string `a`: the empty string is falsy. -/
def jsOrDefault (v : Option String) (d : String) : String :=
  match v with
  | some s => if s = "" then d else s
  | none => d

/-- Consume the rest of a greedy match of the JS regex (?:\.+\/?)+ given
that at least one leading dot has already been consumed; returns the
remainder of the input after the match. Each regex iteration takes one or
more dots and then at most one slash, and iterations continue while the
next character is a dot. -/
def chompAfterDots : List Char → List Char
  | [] => []
  | '.' :: rest => chompAfterDots rest
  | '/' :: rest =>
    match rest with
    | '.' :: rest2 => chompAfterDots rest2
    | _ => rest
  | c :: rest => c :: rest

/-- JS `s.replace(/^(?:\.+\/?)+/, '/')` (source line 83): replace a leading
run of dot segments by a single slash; a string with no leading dot is
unchanged. -/
def replaceLeadingDotRuns (s : String) : String :=
  match s.data with
  | '.' :: rest => String.mk ('/' :: chompAfterDots rest)
  | _ => s

/-- Modelled simplification of WHATWG `new URL(url).pathname` for http(s)
URLs (source line 81): drop the scheme, drop the authority up to the first
slash, and stop at a query or fragment; an absent path is "/". The claims
below never depend on URL details beyond this shape. -/
def urlPathname (url : String) : String :=
  let afterScheme :=
    if strStartsWith url "https://" then url.data.drop 8 else url.data.drop 7
  let fromSlash := afterScheme.dropWhile (fun c => c != '/')
  let path := fromSlash.takeWhile (fun c => c != '?' && c != '#')
  if path.isEmpty then "/" else String.mk path

/-- Normalization of api.config.publicPath, source lines 79-84. -/
def normalizePublicPath (publicPath : String) : String :=
  if strStartsWith publicPath "http://" || strStartsWith publicPath "https://" then
    urlPathname publicPath
  else
    replaceLeadingDotRuns publicPath

/-- Result record of normalizeReqPath, source lines 92-96. -/
structure ReqPathInfo where
  isMfAssets : Bool
  normalPublicPath : String
  fileRelativePath : String
deriving DecidableEq, Repr

/-- JS `reqPath.replace(new RegExp('^' ++ npp), '/')` (source line 90). The
regex is built from the normalized public path, which is free of regex
metacharacters for the public paths this plugin normalizes, so it matches
exactly the literal prefix. -/
def stripPublicPath (npp reqPath : String) : String :=
  if strStartsWith reqPath npp then
    "/" ++ String.mk (reqPath.data.drop npp.data.length)
  else reqPath

/-- Request classification, source lines 78-97: normalize the public path,
recognize the three managed-asset families by prefix, and compute the
file-relative path by stripping the public path and the leading slash. -/
def normalizeReqPath (publicPath reqPath : String) : ReqPathInfo :=
  let npp := normalizePublicPath publicPath
  { isMfAssets :=
      strStartsWith reqPath (npp ++ "mf-va_") ||
      strStartsWith reqPath (npp ++ "mf-dep_") ||
      strStartsWith reqPath (npp ++ "mf-static/"),
    normalPublicPath := npp,
    fileRelativePath := String.mk ((stripPublicPath npp reqPath).data.drop 1) }

/-- One side of the mfsu user config (development or production), holding
an optional output path. -/
structure MfsuOutputConfig where
  output : Option String
deriving DecidableEq, Repr

/-- The mfsu config object with its two optional per-mode sides. -/
structure MfsuConfig where
  development : Option MfsuOutputConfig
  production : Option MfsuOutputConfig
deriving DecidableEq, Repr

/-- One assert of checkConfig: if the output path is present and truthy
(non-empty), it must contain ".mfsu" (the regex /\.mfsu/), else throw. -/
def checkOneOutput (out : Option String) (msg : String) : Except String Unit :=
  match out with
  | some s =>
    if s = "" then Except.ok ()
    else if hasSubstr s ".mfsu" then Except.ok () else Except.error msg
  | none => Except.ok ()

/-- checkConfig, source lines 46-62: assert that each configured (truthy)
mfsu output path matches /\.mfsu/, development first, then production. -/
def checkConfig (mfsu : Option MfsuConfig) : Except String Unit :=
  match checkOneOutput ((mfsu.bind MfsuConfig.development).bind MfsuOutputConfig.output)
      "[MFSU] mfsu.development.output must match /\\.mfsu/." with
  | Except.ok _ =>
    checkOneOutput ((mfsu.bind MfsuConfig.production).bind MfsuOutputConfig.output)
      "[MFSU] mfsu.production.output must match /\\.mfsu/."
  | Except.error e => Except.error e

/-- getMfsuPath, source lines 64-76: the mode-specific mfsu output
directory, from the user config when set and truthy, else the default per
mode. The source guards with a JS ternary on configPath, so a configured
empty string is falsy and falls back to the mode default directory. -/
def getMfsuPath (cwd absTmpPath : String) (userMfsu : Option MfsuConfig)
    (mode : TMode) : String :=
  match mode with
  | TMode.development =>
    match (userMfsu.bind MfsuConfig.development).bind MfsuOutputConfig.output with
    | some configPath =>
      if configPath = "" then pathJoin (pathJoin absTmpPath ".cache") ".mfsu"
      else pathJoin cwd configPath
    | none => pathJoin (pathJoin absTmpPath ".cache") ".mfsu"
  | TMode.production =>
    match (userMfsu.bind MfsuConfig.production).bind MfsuOutputConfig.output with
    | some configPath =>
      if configPath = "" then pathJoin cwd "./.mfsu-production"
      else pathJoin cwd configPath
    | none => pathJoin cwd "./.mfsu-production"

/-- Webpack stats as seen by the onBuildComplete callback: only the
hasErrors predicate is consulted (source line 423). -/
structure BuildStats where
  hasErrors : Bool
deriving DecidableEq, Repr

/-- Payload of the live-reload notification, source line 432: the nested
data object with its reload flag. -/
structure SockData where
  reload : Bool
deriving DecidableEq, Repr

/-- The live-reload notification message, source line 432: a type tag and
a data payload. -/
structure SockMessage where
  type : String
  data : SockData
deriving DecidableEq, Repr

/-- Observable side effects of the buildDeps flow, in order of occurrence:
the physical bundler starting, the snapshot cache write, the socket
notification, and the copy into the permanent output directory. -/
inductive DepEvent where
  | buildStart
  | writeCache
  | sockWrite (msg : SockMessage)
  | copy (src dst : String)
deriving DecidableEq, Repr

/-- The onBuildComplete callback that buildDeps passes to depBuilder.build,
source lines 421-434: bail out when the error is non-null or the stats
report errors; otherwise write the snapshot cache, and in development mode
additionally notify every live client to reload. Returns the emitted
events in order. -/
def buildDepsOnBuildComplete (mode : TMode) (err : Bool) (stats : BuildStats) :
    List DepEvent :=
  if err || stats.hasErrors then []
  else
    DepEvent.writeCache ::
      (match mode with
       | TMode.development => [DepEvent.sockWrite ⟨"ok", ⟨true⟩⟩]
       | TMode.production => [])

/-- Modelled from the spec: DepBuilder.build (the BuildEngine, whose source
is not under src). It runs the physical bundler, invokes the completion
callback with the outcome, and on failure (non-null error or stats with
errors) surfaces the error to the awaiting caller, per spec 4.2 and 4.3
(on failure the error is surfaced to the caller; production-mode failures
abort the pipeline). The physical outcome (err, stats) is an input of the
model. Returns the emitted events and whether the awaited call returned
normally. -/
def depBuilderBuild (cb : Bool → BuildStats → List DepEvent)
    (err : Bool) (stats : BuildStats) : List DepEvent × Bool :=
  (DepEvent.buildStart :: cb err stats, !(err || stats.hasErrors))

/-- buildDeps, source lines 413-447: consult the snapshot evaluation
(shouldBuild, an input, from DepInfo.loadTmpDeps), invoke the dependency
build when forced or warranted, and after the build returns, in production
mode copy the builder working directory into the permanent output
directory (api.userConfig.outputPath, defaulting to ./dist). Returns the
event trace and whether the flow returned normally (false when a build
failure was surfaced through the await). -/
def buildDeps (mode : TMode) (force shouldBuild err : Bool) (stats : BuildStats)
    (tmpDir cwd : String) (outputPath : Option String) : List DepEvent × Bool :=
  let step1 : List DepEvent × Bool :=
    if force || shouldBuild then
      depBuilderBuild (buildDepsOnBuildComplete mode) err stats
    else ([], true)
  if step1.2 then
    match mode with
    | TMode.production =>
      (step1.1 ++ [DepEvent.copy tmpDir (pathJoin cwd (jsOrDefault outputPath "./dist"))],
       true)
    | TMode.development => (step1.1, true)
  else step1

/-- Node path.parse(p).ext: the extension of the basename, from its last
dot inclusive; empty when the basename has no dot or only a leading dot. -/
def extOf (path : String) : String :=
  let base := (path.data.reverse.takeWhile (fun c => c != '/')).reverse
  let revBase := base.reverse
  let afterDot := revBase.takeWhile (fun c => c != '.')
  if afterDot.length = revBase.length then ""
  else if afterDot.length + 1 = revBase.length then ""
  else String.mk ('.' :: afterDot.reverse)

/-- One position of the JS regex /remoteEntry.js/: the literal characters
remoteEntry, one arbitrary character, then the literal js. -/
def remoteEntryHere (cs : List Char) : Bool :=
  match dropLit "remoteEntry".data cs with
  | some (_ :: rest) => (dropLit "js".data rest).isSome
  | _ => false

/-- JS /remoteEntry.js/.test(url) (source line 351): unanchored search. -/
def regexTestRemoteEntry (url : String) : Bool :=
  anyPosHolds remoteEntryHere url.data

/-- Observable steps of the asset middleware while serving one request:
the completion broadcast of the in-flight build, the file read, the
response headers, the response send, and delegation to the next handler. -/
inductive ServeEvent where
  | buildCompleteNotification
  | readFile (path : String)
  | setHeader (name value : String)
  | send
  | next
deriving DecidableEq, Repr

/-- The handler body registered by the middleware for a managed asset,
source lines 343-355: read the file at the request's relative path under
the development mfsu output directory, set the content type from the
request path's extension, set the immutable cache header unless the
request URL matches /remoteEntry.js/, and send the content. -/
def assetHandler (cwd absTmpPath : String) (userMfsu : Option MfsuConfig)
    (path url : String) (mimeOf : String → String)
    (fileRelativePath : String) : List ServeEvent :=
  let mfsuPath := getMfsuPath cwd absTmpPath userMfsu TMode.development
  [ServeEvent.readFile (pathJoin mfsuPath fileRelativePath),
   ServeEvent.setHeader "content-type" (mimeOf (extOf path))] ++
  (if regexTestRemoteEntry url then []
   else [ServeEvent.setHeader "cache-control" "max-age=31536000,immutable"]) ++
  [ServeEvent.send]

/-- Modelled from the spec: DepBuilder.onBuildComplete (the BuildEngine's
completion channel, whose source is not under src). When a build is in
flight the callback is queued and runs right after the in-flight build's
completion broadcast; when no build is in flight it runs immediately
(spec 4.2 and 4.4). -/
def depBuilderOnBuildComplete (building : Bool) (cb : List ServeEvent) :
    List ServeEvent :=
  if building then ServeEvent.buildCompleteNotification :: cb else cb

/-- The middleware registered via api.addBeforeMiddlewares, source lines
337-360: classify the request path; for a managed asset register the
serving handler on the dep builder's completion channel, otherwise call
the next handler. Returns the trace of one request. -/
def middleware (building : Bool) (cwd absTmpPath : String)
    (userMfsu : Option MfsuConfig) (publicPath reqPath reqUrl : String)
    (mimeOf : String → String) : List ServeEvent :=
  let info := normalizeReqPath publicPath reqPath
  if info.isMfAssets then
    depBuilderOnBuildComplete building
      (assetHandler cwd absTmpPath userMfsu reqPath reqUrl mimeOf
        info.fileRelativePath)
  else [ServeEvent.next]

/-- Command-line arguments as the plugin reads them: the positional list
(args underscore), the optional mode flag, and the force flag. -/
structure CliArgs where
  positional : List String
  modeArg : Option String
  force : Bool

/-- JS truthiness of an optional string flag: present and non-empty. -/
def jsTruthyStr (v : Option String) : Bool :=
  match v with
  | some s => if s = "" then false else true
  | none => false

/-- Mode selection in api.onStart, source lines 129-137: the mode starts
as development, becomes production for the build command, and for the
mfsu build subcommand with a truthy mode flag takes the flag value. -/
def computeMode (name : String) (args : CliArgs) : String :=
  if name = "build" then "production"
  else if name = "mfsu" ∧ args.positional[1]? = some "build"
      ∧ jsTruthyStr args.modeArg = true then
    jsOrDefault args.modeArg "development"
  else "development"

/-- The mode assertion in api.onStart, source lines 138-141: startup
continues only when the computed mode is development or production. -/
def onStartCheck (name : String) (args : CliArgs) : Except String String :=
  let mode := computeMode name args
  if mode = "development" ∨ mode = "production" then Except.ok mode
  else Except.error ("[MFSU] Unsupported mode " ++ mode ++
    ", expect development or production.")

/-- Observable effect of the mfsu command: invoking buildDeps with the
force flag. -/
inductive CmdEvent where
  | buildDepsInvoked (force : Bool)
deriving DecidableEq, Repr

/-- The mfsu command body, source lines 453-469: the build subcommand runs
buildDeps with the force flag; any other subcommand throws. -/
def mfsuCommandFn (args : CliArgs) : Except String (List CmdEvent) :=
  match args.positional[0]? with
  | some sub =>
    if sub = "build" then Except.ok [CmdEvent.buildDepsInvoked args.force]
    else Except.error ("[MFSU] Unsupported subcommand " ++ sub ++ " for mfsu.")
  | none => Except.error "[MFSU] Unsupported subcommand undefined for mfsu."

/-- C1: in production mode, the copy of the build working directory into
the permanent publish output directory is performed only after a
successful build; for every production-mode buildDeps invocation in which
the dependency build runs and errs (non-null error or stats with errors),
the build failure is surfaced through the await and no copy event is ever
emitted, so the publish directory is not written. -/
theorem c1_production_failure_no_copy (force shouldBuild err : Bool)
    (stats : BuildStats) (tmpDir cwd : String) (outputPath : Option String)
    (hbuild : (force || shouldBuild) = true)
    (hfail : (err || stats.hasErrors) = true) :
    ∀ s d, DepEvent.copy s d ∉
      (buildDeps TMode.production force shouldBuild err stats tmpDir cwd outputPath).1 := by
  intro s d
  simp [buildDeps, hbuild, depBuilderBuild, buildDepsOnBuildComplete, hfail]

/-- Witness for C1 at a concrete failing production build. -/
theorem c1_witness :
    ((true || false) = true) ∧
    ((true || BuildStats.hasErrors ⟨false⟩) = true) ∧
    (∀ s d, DepEvent.copy s d ∉
      (buildDeps TMode.production true false true ⟨false⟩ "/tmp/mfsu" "/cwd" none).1) :=
  ⟨by decide, by decide,
    c1_production_failure_no_copy true false true ⟨false⟩ "/tmp/mfsu" "/cwd" none
      (by decide) (by decide)⟩

/-- C2: buildDeps invokes the physical dependency build exactly when force
is true or the snapshot evaluation reports shouldBuild; with both false it
returns without invoking the bundler, and with force true the build runs
even when shouldBuild is false (persisted set equal to the pending set). -/
theorem c2_build_iff_force_or_shouldBuild (mode : TMode) (force shouldBuild err : Bool)
    (stats : BuildStats) (tmpDir cwd : String) (outputPath : Option String) :
    DepEvent.buildStart ∈
      (buildDeps mode force shouldBuild err stats tmpDir cwd outputPath).1 ↔
    (force || shouldBuild) = true := by
  cases hfs : force || shouldBuild <;> cases mode <;>
    cases he : err || stats.hasErrors <;>
      simp [buildDeps, hfs, depBuilderBuild, buildDepsOnBuildComplete, he]

/-- Witness for C2 (the theorem has no hypotheses): instantiated at a
forced invocation whose snapshot evaluation reports no rebuild needed. -/
theorem c2_witness :
    DepEvent.buildStart ∈
      (buildDeps TMode.development true false false ⟨false⟩ "/tmp/mfsu" "/cwd" none).1 ↔
    (true || false) = true :=
  c2_build_iff_force_or_shouldBuild TMode.development true false false ⟨false⟩
    "/tmp/mfsu" "/cwd" none

/-- C3: whenever the build completion carries a non-null error or stats
reporting errors, the onBuildComplete callback of buildDeps writes nothing:
in particular the snapshot cache write never happens, leaving the persisted
snapshot exactly as before the failed build. -/
theorem c3_failure_no_cache_write (mode : TMode) (err : Bool) (stats : BuildStats)
    (hfail : (err || stats.hasErrors) = true) :
    DepEvent.writeCache ∉ buildDepsOnBuildComplete mode err stats := by
  simp [buildDepsOnBuildComplete, hfail]

/-- Witness for C3 at a concrete failed completion. -/
theorem c3_witness :
    ((false || BuildStats.hasErrors ⟨true⟩) = true) ∧
    DepEvent.writeCache ∉ buildDepsOnBuildComplete TMode.development false ⟨true⟩ :=
  ⟨by decide, c3_failure_no_cache_write TMode.development false ⟨true⟩ (by decide)⟩

/-- C4: on a successful development-mode build completion the callback
emits exactly the cache write followed by the reload notification of shape
type "ok" with data.reload true (so the write happens before the
notification); on a production-mode completion no reload notification is
ever emitted. -/
theorem c4_dev_cache_before_reload (err : Bool) (stats : BuildStats)
    (herr : err = false) (hstats : stats.hasErrors = false) :
    buildDepsOnBuildComplete TMode.development err stats =
      [DepEvent.writeCache, DepEvent.sockWrite ⟨"ok", ⟨true⟩⟩] ∧
    ∀ msg, DepEvent.sockWrite msg ∉ buildDepsOnBuildComplete TMode.production err stats := by
  subst herr
  refine ⟨by simp [buildDepsOnBuildComplete, hstats], ?_⟩
  intro msg
  simp [buildDepsOnBuildComplete, hstats]

/-- Witness for C4 at a concrete successful completion. -/
theorem c4_witness :
    ((false : Bool) = false) ∧ (BuildStats.hasErrors ⟨false⟩ = false) ∧
    (buildDepsOnBuildComplete TMode.development false ⟨false⟩ =
      [DepEvent.writeCache, DepEvent.sockWrite ⟨"ok", ⟨true⟩⟩] ∧
     ∀ msg, DepEvent.sockWrite msg ∉ buildDepsOnBuildComplete TMode.production false ⟨false⟩) :=
  ⟨rfl, rfl, c4_dev_cache_before_reload false ⟨false⟩ rfl rfl⟩

/-- C9: the mfsu command succeeds, invoking the dependency build with the
force flag, exactly for the subcommand build, and throws for every other
subcommand; and the startup check of api.onStart succeeds exactly when the
computed mode is development or production, so any other mode value fails
the assertion at startup, before any build. -/
theorem c9_command_and_mode_guard (args : CliArgs) (name : String) :
    ((∃ evs, mfsuCommandFn args = Except.ok evs ∧
        CmdEvent.buildDepsInvoked args.force ∈ evs) ↔
      args.positional[0]? = some "build") ∧
    ((∃ m, onStartCheck name args = Except.ok m) ↔
      (computeMode name args = "development" ∨ computeMode name args = "production")) := by
  constructor
  · cases h0 : args.positional[0]? with
    | none => simp [mfsuCommandFn, h0]
    | some sub =>
      by_cases hs : sub = "build"
      · subst hs
        simp [mfsuCommandFn, h0]
      · simp [mfsuCommandFn, h0, hs]
  · unfold onStartCheck
    by_cases h : computeMode name args = "development" ∨ computeMode name args = "production"
    · simp [h]
    · simp [h]

/-- Witness for C9 (the theorem has no hypotheses): instantiated at the
build subcommand and the mfsu build invocation with an unsupported mode. -/
theorem c9_witness :
    ((∃ evs, mfsuCommandFn ⟨["build"], none, true⟩ = Except.ok evs ∧
        CmdEvent.buildDepsInvoked true ∈ evs) ↔
      (["build"] : List String)[0]? = some "build") ∧
    ((∃ m, onStartCheck "mfsu" ⟨["mfsu", "build"], some "staging", false⟩ = Except.ok m) ↔
      (computeMode "mfsu" ⟨["mfsu", "build"], some "staging", false⟩ = "development" ∨
       computeMode "mfsu" ⟨["mfsu", "build"], some "staging", false⟩ = "production")) :=
  c9_command_and_mode_guard ⟨["build"], none, true⟩ "mfsu" |>.imp id
    (fun _ => (c9_command_and_mode_guard ⟨["mfsu", "build"], some "staging", false⟩ "mfsu").2)

/-- Helper: when one checkOneOutput assert passes, exactly the configured
non-empty outputs containing ".mfsu" are accepted. -/
theorem checkOneOutput_ok_iff (out : Option String) (msg : String) :
    checkOneOutput out msg = Except.ok () ↔
      ∀ s, out = some s → s ≠ "" → hasSubstr s ".mfsu" = true := by
  cases out with
  | none => simp [checkOneOutput]
  | some s =>
    by_cases he : s = ""
    · subst he
      simp [checkOneOutput]
    · by_cases hm : hasSubstr s ".mfsu" = true
      · simp [checkOneOutput, he, hm]
      · simp [checkOneOutput, he, hm]

/-- C10 counterexample: the claim as stated fails on the code because of
JavaScript truthiness: the configuration whose development output is the
empty string is user-configured, the empty string does not contain the
substring ".mfsu", yet checkConfig returns without error (the truthiness
guard on mfsu.development.output skips the assert). -/
theorem c10_counterexample :
    checkConfig (some ⟨some ⟨some ""⟩, none⟩) = Except.ok () ∧
    hasSubstr "" ".mfsu" = false :=
  ⟨rfl, rfl⟩

/-- C10 (amended): checkConfig throws an assertion error whenever a
user-configured mfsu output path (development or production) is non-empty
and does not contain the substring ".mfsu", and returns without error
exactly for the configurations in which each configured output path is
absent, empty, or contains ".mfsu". -/
theorem c10_checkConfig_ok_iff (mfsu : Option MfsuConfig) :
    checkConfig mfsu = Except.ok () ↔
      ((∀ s, (mfsu.bind MfsuConfig.development).bind MfsuOutputConfig.output = some s →
          s ≠ "" → hasSubstr s ".mfsu" = true) ∧
       (∀ s, (mfsu.bind MfsuConfig.production).bind MfsuOutputConfig.output = some s →
          s ≠ "" → hasSubstr s ".mfsu" = true)) := by
  have hdev := checkOneOutput_ok_iff
    ((mfsu.bind MfsuConfig.development).bind MfsuOutputConfig.output)
    "[MFSU] mfsu.development.output must match /\\.mfsu/."
  have hprod := checkOneOutput_ok_iff
    ((mfsu.bind MfsuConfig.production).bind MfsuOutputConfig.output)
    "[MFSU] mfsu.production.output must match /\\.mfsu/."
  unfold checkConfig
  cases h1 : checkOneOutput ((mfsu.bind MfsuConfig.development).bind MfsuOutputConfig.output)
      "[MFSU] mfsu.development.output must match /\\.mfsu/." with
  | error e =>
    rw [h1] at hdev
    simp only [reduceCtorEq, false_iff] at hdev ⊢
    intro hcontra
    exact hdev hcontra.1
  | ok u =>
    cases u
    rw [h1] at hdev
    rw [hprod]
    simp only [true_iff] at hdev
    constructor
    · intro h
      exact ⟨hdev, h⟩
    · intro h
      exact h.2

/-- Witness for C10 at a concrete configuration with both outputs set. -/
theorem c10_witness :
    checkConfig (some ⟨some ⟨some "./x/.mfsu"⟩, some ⟨some "./y/.mfsu-prod"⟩⟩) =
        Except.ok () ↔
      ((∀ s, ((some ⟨some ⟨some "./x/.mfsu"⟩, some ⟨some "./y/.mfsu-prod"⟩⟩ :
            Option MfsuConfig).bind MfsuConfig.development).bind MfsuOutputConfig.output =
            some s → s ≠ "" → hasSubstr s ".mfsu" = true) ∧
       (∀ s, ((some ⟨some ⟨some "./x/.mfsu"⟩, some ⟨some "./y/.mfsu-prod"⟩⟩ :
            Option MfsuConfig).bind MfsuConfig.production).bind MfsuOutputConfig.output =
            some s → s ≠ "" → hasSubstr s ".mfsu" = true)) :=
  c10_checkConfig_ok_iff (some ⟨some ⟨some "./x/.mfsu"⟩, some ⟨some "./y/.mfsu-prod"⟩⟩)

/-- Helper: strings with equal character data are equal. -/
theorem stringDataInj (a b : String) (h : a.data = b.data) : a = b :=
  congrArg String.mk h

/-- Helper: a list prefix test against an appended pattern splits into the
pattern's two parts. -/
theorem appendIsPrefixEquiv (a b s : List Char) :
    (a ++ b) <+: s ↔ ∃ t, s = a ++ t ∧ b <+: t := by
  constructor
  · rintro ⟨u, hu⟩
    exact ⟨b ++ u, by rw [← hu, List.append_assoc], ⟨u, rfl⟩⟩
  · rintro ⟨t, hst, u, hu⟩
    exact ⟨u, by rw [hst, ← hu, List.append_assoc]⟩

/-- Helper: a string starts with an appended pattern exactly when it is the
first part followed by a remainder starting with the second part. -/
theorem strStartsWith_append_iff (s a b : String) :
    strStartsWith s (a ++ b) = true ↔
      ∃ t : String, s = a ++ t ∧ strStartsWith t b = true := by
  simp only [strStartsWith, List.isPrefixOf_iff_prefix, String.data_append,
    appendIsPrefixEquiv]
  constructor
  · rintro ⟨tl, h1, h2⟩
    exact ⟨String.mk tl, stringDataInj _ _ (by rw [String.data_append]; exact h1), h2⟩
  · rintro ⟨t, h1, h2⟩
    exact ⟨t.data, by rw [h1, String.data_append], h2⟩

/-- C6: normalizeReqPath marks a request path as a managed asset exactly
when, after the normalized public-path prefix, it continues with one of
the three family prefixes mf-va underscore, mf-dep underscore or
mf-static slash; and every request not classified as managed is passed
unchanged to the next middleware (the middleware neither serves it nor
responds with an error). -/
theorem c6_classification (building : Bool) (cwd absTmpPath : String)
    (userMfsu : Option MfsuConfig) (publicPath reqPath reqUrl : String)
    (mimeOf : String → String) :
    ((normalizeReqPath publicPath reqPath).isMfAssets = true ↔
      ∃ rest : String,
        reqPath = (normalizeReqPath publicPath reqPath).normalPublicPath ++ rest ∧
        (strStartsWith rest "mf-va_" = true ∨ strStartsWith rest "mf-dep_" = true ∨
         strStartsWith rest "mf-static/" = true)) ∧
    ((normalizeReqPath publicPath reqPath).isMfAssets = false →
      middleware building cwd absTmpPath userMfsu publicPath reqPath reqUrl mimeOf =
        [ServeEvent.next]) := by
  constructor
  · simp only [normalizeReqPath, Bool.or_eq_true, strStartsWith_append_iff]
    constructor
    · rintro ((⟨t, h1, h2⟩ | ⟨t, h1, h2⟩) | ⟨t, h1, h2⟩)
      · exact ⟨t, h1, Or.inl h2⟩
      · exact ⟨t, h1, Or.inr (Or.inl h2)⟩
      · exact ⟨t, h1, Or.inr (Or.inr h2)⟩
    · rintro ⟨t, h1, (h2 | h2 | h2)⟩
      · exact Or.inl (Or.inl ⟨t, h1, h2⟩)
      · exact Or.inl (Or.inr ⟨t, h1, h2⟩)
      · exact Or.inr ⟨t, h1, h2⟩
  · intro hfalse
    simp [middleware, hfalse]

/-- Witness for C6 at a concrete unmanaged request passed through to the
next handler. -/
theorem c6_witness :
    ((normalizeReqPath "/" "/assets/logo.png").isMfAssets = true ↔
      ∃ rest : String,
        "/assets/logo.png" = (normalizeReqPath "/" "/assets/logo.png").normalPublicPath ++ rest ∧
        (strStartsWith rest "mf-va_" = true ∨ strStartsWith rest "mf-dep_" = true ∨
         strStartsWith rest "mf-static/" = true)) ∧
    ((normalizeReqPath "/" "/assets/logo.png").isMfAssets = false →
      middleware false "/cwd" "/tmp" none "/" "/assets/logo.png" "/assets/logo.png"
          (fun _ => "image/png") = [ServeEvent.next]) :=
  c6_classification false "/cwd" "/tmp" none "/" "/assets/logo.png" "/assets/logo.png"
    (fun _ => "image/png")

/-- C5: for a request classified as a managed asset that arrives while a
build is in flight, every file read in the request's trace occurs strictly
after the build-completion notification of the dependency builder: the
read and response happen inside the onBuildComplete callback, never
before the notification fires. -/
theorem c5_read_after_notification (cwd absTmpPath : String)
    (userMfsu : Option MfsuConfig) (publicPath reqPath reqUrl : String)
    (mimeOf : String → String)
    (h : (normalizeReqPath publicPath reqPath).isMfAssets = true) :
    ∀ (i : Nat) (p : String),
      (middleware true cwd absTmpPath userMfsu publicPath reqPath reqUrl mimeOf)[i]? =
        some (ServeEvent.readFile p) →
      ∃ j : Nat, j < i ∧
        (middleware true cwd absTmpPath userMfsu publicPath reqPath reqUrl mimeOf)[j]? =
          some ServeEvent.buildCompleteNotification := by
  intro i p hp
  have hm : middleware true cwd absTmpPath userMfsu publicPath reqPath reqUrl mimeOf =
      ServeEvent.buildCompleteNotification ::
        assetHandler cwd absTmpPath userMfsu reqPath reqUrl mimeOf
          (normalizeReqPath publicPath reqPath).fileRelativePath := by
    simp [middleware, h, depBuilderOnBuildComplete]
  cases i with
  | zero =>
    rw [hm] at hp
    simp at hp
  | succ k =>
    refine ⟨0, Nat.succ_pos k, ?_⟩
    rw [hm]
    rfl

/-- Witness for C5 at a concrete managed-asset request. -/
theorem c5_witness :
    ((normalizeReqPath "/" "/mf-va_app.js").isMfAssets = true) ∧
    (∀ (i : Nat) (p : String),
      (middleware true "/cwd" "/tmp" none "/" "/mf-va_app.js" "/mf-va_app.js"
          (fun _ => "text/javascript"))[i]? = some (ServeEvent.readFile p) →
      ∃ j : Nat, j < i ∧
        (middleware true "/cwd" "/tmp" none "/" "/mf-va_app.js" "/mf-va_app.js"
          (fun _ => "text/javascript"))[j]? = some ServeEvent.buildCompleteNotification) :=
  ⟨by decide,
    c5_read_after_notification "/cwd" "/tmp" none "/" "/mf-va_app.js" "/mf-va_app.js"
      (fun _ => "text/javascript") (by decide)⟩

/-- C7: every served managed asset gets a content-type header derived from
the request path's file extension, and the long-lived cache-control header
max-age=31536000,immutable is set exactly when the request URL does not
match the remote-entry pattern /remoteEntry.js/. -/
theorem c7_headers (building : Bool) (cwd absTmpPath : String)
    (userMfsu : Option MfsuConfig) (publicPath reqPath reqUrl : String)
    (mimeOf : String → String)
    (h : (normalizeReqPath publicPath reqPath).isMfAssets = true) :
    ServeEvent.setHeader "content-type" (mimeOf (extOf reqPath)) ∈
      middleware building cwd absTmpPath userMfsu publicPath reqPath reqUrl mimeOf ∧
    (ServeEvent.setHeader "cache-control" "max-age=31536000,immutable" ∈
        middleware building cwd absTmpPath userMfsu publicPath reqPath reqUrl mimeOf ↔
      regexTestRemoteEntry reqUrl = false) := by
  cases hre : regexTestRemoteEntry reqUrl <;> cases building <;>
    simp [middleware, h, depBuilderOnBuildComplete, assetHandler, hre]

/-- Witness for C7 at a concrete managed remote-entry request. -/
theorem c7_witness :
    ((normalizeReqPath "/" "/mf-va_remoteEntry.js").isMfAssets = true) ∧
    (ServeEvent.setHeader "content-type"
        ((fun _ => "text/javascript") (extOf "/mf-va_remoteEntry.js")) ∈
      middleware false "/cwd" "/tmp" none "/" "/mf-va_remoteEntry.js"
        "/mf-va_remoteEntry.js" (fun _ => "text/javascript") ∧
    (ServeEvent.setHeader "cache-control" "max-age=31536000,immutable" ∈
        middleware false "/cwd" "/tmp" none "/" "/mf-va_remoteEntry.js"
          "/mf-va_remoteEntry.js" (fun _ => "text/javascript") ↔
      regexTestRemoteEntry "/mf-va_remoteEntry.js" = false)) :=
  ⟨by decide,
    c7_headers false "/cwd" "/tmp" none "/" "/mf-va_remoteEntry.js"
      "/mf-va_remoteEntry.js" (fun _ => "text/javascript") (by decide)⟩

/-- C8: a managed-asset request served while no build is in flight is
served immediately, and its content is read from the file at the managed
asset's relative path under the current mode's mfsu output path (the
middleware runs in the dev server, where the current mode is
development). -/
theorem c8_idle_serves_from_mode_output (mode : TMode) (cwd absTmpPath : String)
    (userMfsu : Option MfsuConfig) (publicPath reqPath reqUrl : String)
    (mimeOf : String → String)
    (h : (normalizeReqPath publicPath reqPath).isMfAssets = true)
    (hmode : mode = TMode.development) :
    (middleware false cwd absTmpPath userMfsu publicPath reqPath reqUrl mimeOf)[0]? =
      some (ServeEvent.readFile
        (pathJoin (getMfsuPath cwd absTmpPath userMfsu mode)
          (normalizeReqPath publicPath reqPath).fileRelativePath)) := by
  subst hmode
  simp [middleware, h, depBuilderOnBuildComplete, assetHandler]

/-- Witness for C8 at a concrete managed-asset request with no build in
flight. -/
theorem c8_witness :
    ((normalizeReqPath "/" "/mf-dep_vendors.js").isMfAssets = true) ∧
    (TMode.development = TMode.development) ∧
    ((middleware false "/cwd" "/tmp" none "/" "/mf-dep_vendors.js" "/mf-dep_vendors.js"
        (fun _ => "text/javascript"))[0]? =
      some (ServeEvent.readFile
        (pathJoin (getMfsuPath "/cwd" "/tmp" none TMode.development)
          (normalizeReqPath "/" "/mf-dep_vendors.js").fileRelativePath))) :=
  ⟨by decide, rfl,
    c8_idle_serves_from_mode_output TMode.development "/cwd" "/tmp" none "/"
      "/mf-dep_vendors.js" "/mf-dep_vendors.js" (fun _ => "text/javascript")
      (by decide) rfl⟩

end Mfsu
